import Mathlib

/-!
Verification of the ToggleTalk server (src/ToggleTalkServer/ToggleTalkBotServer.py)
against its natural-language specification.  The Python source is shallowly
embedded: free-text matching works on lowered strings via substring tests,
the mutable server object becomes an explicit `ServerState`, GPIO actuation
becomes an environment oracle, and `datetime.now()` becomes an explicit
`now : Nat` (seconds).
-/

namespace ToggleTalk

/-- Model of Python list/str containment: does `pat` occur as a prefix of `s`? -/
def listStartsWith : List Char → List Char → Bool
  | [], _ => true
  | _ :: _, [] => false
  | p :: ps, c :: cs => p == c && listStartsWith ps cs

/-- Does `pat` occur as a contiguous sublist of `s` (Python `pat in s`)? -/
def listContains (pat : List Char) : List Char → Bool
  | [] => listStartsWith pat []
  | c :: cs => listStartsWith pat (c :: cs) || listContains pat cs

/-- Python `pat in s` on strings. -/
def strContains (s pat : String) : Bool := listContains pat.data s.data

/-- Python `s.startswith(pat)`. -/
def strStartsWith (s pat : String) : Bool := listStartsWith pat.data s.data

/-- Python `s.lower()` (ASCII case folding, as used by the source's keywords). -/
def strLower (s : String) : String := ⟨s.data.map Char.toLower⟩

/-- Python `s[:n]`. -/
def strTake (s : String) (n : Nat) : String := ⟨s.data.take n⟩

/-- Helper for `pyWords`: accumulate the current word (reversed) while scanning. -/
def wordsAux (cur : List Char) : List Char → List (List Char)
  | [] => if cur.isEmpty then [] else [cur.reverse]
  | c :: cs =>
    if c.isWhitespace then
      if cur.isEmpty then wordsAux [] cs else cur.reverse :: wordsAux [] cs
    else wordsAux (c :: cur) cs

/-- Python `s.split()` with no argument: whitespace-separated words, empties dropped. -/
def pyWords (s : String) : List String := (wordsAux [] s.data).map (fun l => ⟨l⟩)

/-- Python `'_'`-to-space replacement used by `get_device_user_name`'s default. -/
def replaceUnderscore (s : String) : String :=
  ⟨s.data.map (fun c => if c == '_' then ' ' else c)⟩

/-- Helper for `pyTitle`: `prev` records whether the previous char was a letter. -/
def titleAux : Bool → List Char → List Char
  | _, [] => []
  | prev, c :: cs =>
    if c.isAlpha then
      (if prev then c.toLower else c.toUpper) :: titleAux true cs
    else c :: titleAux false cs

/-- Python `s.title()`. -/
def pyTitle (s : String) : String := ⟨titleAux false s.data⟩

/-- Two-digit zero padding, `strftime` style. -/
def pad2 (n : Nat) : String := if n < 10 then "0" ++ Nat.repr n else Nat.repr n

/-- `datetime.strftime("%H:%M:%S")` on a timestamp given in seconds. -/
def formatHMS (t : Nat) : String :=
  pad2 (t / 3600 % 24) ++ ":" ++ pad2 (t / 60 % 60) ++ ":" ++ pad2 (t % 60)

/-- Python `f"[{n:2d}]"` interior: width-2 right-aligned ordinal. -/
def padOrd (n : Nat) : String := if n < 10 then " " ++ Nat.repr n else Nat.repr n

/-- Python `'\n'.join(lines)`. -/
def joinLines : List String → String
  | [] => ""
  | [l] => l
  | l :: ls => l ++ "\n" ++ joinLines ls

/-- The `"=" * 60` separator line of `get_log_details`. -/
def eq60 : String := ⟨List.replicate 60 '='⟩

/-- In-memory status of the three appliances (`self.home_devices`). -/
structure HomeDevices where
  light : String
  ac : String
  washing_machine : String
deriving DecidableEq

/-- A pending notification record (`{text, timestamp, id}`). -/
structure Notification where
  text : String
  timestamp : String
  id : Nat
deriving DecidableEq

/-- A scheduled task (`{device, action, scheduled_time, user_name}`). -/
structure Task where
  device : String
  action : String
  scheduled_time : Nat
  user_name : String
deriving DecidableEq

/-- One line of the events log file. -/
structure LogEntry where
  timestamp : String
  event_type : String
  message : String
  user_name : Option String
  user_id : Option Nat
deriving DecidableEq

/-- The mutable state of `ToggleTalkFlaskServer` plus the files it owns.
`notificationQueue` is the internal delivery queue (`notification_queue`),
`taskSaves` counts calls to `save_scheduled_tasks`. -/
structure ServerState where
  homeDevices : HomeDevices
  securityActive : Bool
  pendingNotifications : List Notification
  scheduledTasks : List Task
  eventLog : List LogEntry
  notificationQueue : List String
  chatIds : List Nat
  taskSaves : Nat
deriving DecidableEq

/-- External capabilities: GPIO availability and per-attempt actuation results,
the LDR sensor level, the md5-derived notification id, `datetime.isoformat`,
and the log-detail timestamp formatter (`fromisoformat` + `strftime`). -/
structure Env where
  gpioAvailable : Bool
  gpioOk : String → String → Nat → Bool
  ldrHigh : Bool
  hashId : String → String → Nat
  isoFormat : Nat → String
  fmtTime : String → String

/-- Read `self.home_devices[name]['status']`. -/
def getStatus (h : HomeDevices) (name : String) : String :=
  if name = "light" then h.light
  else if name = "ac" then h.ac
  else if name = "washing_machine" then h.washing_machine
  else ""

/-- Write `self.home_devices[name]['status'] = v`. -/
def setStatus (h : HomeDevices) (name v : String) : HomeDevices :=
  if name = "light" then { h with light := v }
  else if name = "ac" then { h with ac := v }
  else if name = "washing_machine" then { h with washing_machine := v }
  else h

/-- Python `name in self.home_devices`. -/
def hasDevice (name : String) : Bool :=
  name == "light" || name == "ac" || name == "washing_machine"

/-- Keys of the `GPIO_PINS` configuration dictionary. -/
def gpioPinNames : List String :=
  ["light", "ac", "washing_machine", "laser_module", "ldr_sensor", "buzzer"]

/-- `get_device_user_name`: friendly display names, with the code's
`replace('_',' ').title()` fallback. -/
def get_device_user_name (name : String) : String :=
  if name = "light" then "Light"
  else if name = "ac" then "Air Conditioner"
  else if name = "washing_machine" then "Washing Machine"
  else pyTitle (replaceUnderscore name)

/-- `log_event`: append one record to the events log (write failures are
swallowed by the source, so the model is a pure append). -/
def log_event (env : Env) (st : ServerState) (now : Nat)
    (etype msg user : String) : ServerState :=
  { st with eventLog := st.eventLog ++
      [{ timestamp := env.isoFormat now, event_type := etype, message := msg,
         user_name := some user, user_id := none }] }

/-- `add_pending_notification`: append, then keep only the most recent 100. -/
def add_pending_notification (env : Env) (st : ServerState) (now : Nat)
    (text : String) : ServerState :=
  let ts := env.isoFormat now
  let n : Notification := { text := text, timestamp := ts, id := env.hashId text ts }
  let l := st.pendingNotifications ++ [n]
  let l2 := if l.length > 100 then l.drop (l.length - 100) else l
  { st with pendingNotifications := l2 }

/-- `control_gpio_device`: simulation mode always succeeds; hardware mode
validates the device and action, then retries the pin write up to 3 times,
the first success short-circuiting. -/
def control_gpio_device (env : Env) (device action : String) : Bool :=
  if !env.gpioAvailable then true
  else if !(gpioPinNames.contains device) then false
  else if !(action == "on" || action == "off") then false
  else env.gpioOk device action 0 || env.gpioOk device action 1 || env.gpioOk device action 2

/-- Keyword gate for the scheduling sub-parser (`'schedule' in text or 'timer' in text`). -/
def schedKw (t : String) : Bool := strContains t "schedule" || strContains t "timer"

/-- The deliberately loose air-conditioner heuristics, in the code's order. -/
def acHeuristic (t : String) : Bool :=
  strContains t "ac " || strContains t " air condition" || strStartsWith t "ac" ||
    t == "ac" || (pyWords t).contains "ac"

/-- Security-branch gate (`'security' in text or 'laser' in text or 'intruder' in text`). -/
def securityKw (t : String) : Bool :=
  strContains t "security" || strContains t "laser" || strContains t "intruder"

/-- Security-branch arming keywords. -/
def secInitKw (t : String) : Bool :=
  strContains t "initialize" || strContains t "start" ||
    strContains t "activate" || strContains t "arm"

/-- Security-branch disarming keywords. -/
def secTermKw (t : String) : Bool :=
  strContains t "terminate" || strContains t "stop" ||
    strContains t "deactivate" || strContains t "disarm"

/-- The 4.1 device matching of `process_home_automation`: washing machine first,
then the loose air-conditioner heuristics, then light. -/
def deviceMatch41 (t : String) : Option String :=
  if strContains t "washing machine" then some "washing_machine"
  else if acHeuristic t then some "ac"
  else if strContains t "light" then some "light"
  else none

/-- The on/off action matching shared by every device branch. -/
def actionMatch (t : String) : Option String :=
  if strContains t "turn on" || strContains t "switch on" then some "on"
  else if strContains t "turn off" || strContains t "switch off" then some "off"
  else none

/-- Which branch of `process_home_automation`'s if/elif chain fires on a
(lowered) text. -/
inductive Branch
  | sched
  | washing
  | air
  | lightB
  | security
  | other
deriving DecidableEq

/-- The branch selection of `process_home_automation`, in source order. -/
def takenBranch (t : String) : Branch :=
  if schedKw t then .sched
  else if strContains t "washing machine" then .washing
  else if acHeuristic t then .air
  else if strContains t "light" then .lightB
  else if securityKw t then .security
  else .other

/-- Error-reply device name: the light branch says lowercase `light`. -/
def devErrName (d : String) : String :=
  if d = "light" then "light" else get_device_user_name d

/-- Query-reply emoji per device branch. -/
def devEmoji (d : String) : String :=
  if d = "washing_machine" then "🧺" else if d = "ac" then "❄️" else "💡"

/-- One on/off/query device branch of `process_home_automation`.  Note: the
source writes the new status into `home_devices` BEFORE calling
`control_gpio_device` and does not revert it on failure. -/
def deviceBranch (env : Env) (st : ServerState) (now : Nat)
    (d text user : String) : String × ServerState :=
  match actionMatch text with
  | some a =>
    let st1 := { st with homeDevices := setStatus st.homeDevices d a }
    let disp := if a = "on" then "ON" else "OFF"
    if control_gpio_device env d a then
      ("✅ " ++ get_device_user_name d ++ " turned " ++ disp ++ ".",
       log_event env st1 now "device_control" (get_device_user_name d ++ " turned " ++ disp) user)
    else
      ("⚠️ Error turning " ++ (if a = "on" then "on " else "off ") ++ devErrName d ++
         ". Please try again.", st1)
  | none =>
    (devEmoji d ++ " " ++ get_device_user_name d ++ " is currently " ++
       getStatus st.homeDevices d ++ ".", st)

/-- `initialize_security_system`: simulation mode returns a warning without
touching any state; hardware mode arms the laser/sensor/buzzer, sets the
active flag, logs, and enqueues a pending notification. -/
def init_security_system (env : Env) (st : ServerState) (now : Nat)
    (user : String) : String × ServerState :=
  if !env.gpioAvailable then
    ("⚠️ Security system requires Raspberry Pi with GPIO support. Running in simulation mode.", st)
  else
    let st1 := { st with securityActive := true }
    let st2 := log_event env st1 now "security_system_activated"
      ("Home security system activated by " ++ user) user
    let st3 := add_pending_notification env st2 now
      ("[NOTIFICATION] 🛡️ " ++ user ++ ": Home Security System INITIALIZED at " ++ formatHMS now)
    ("✅ Home Security System INITIALIZED. Laser module activated and monitoring for intruders.", st3)

/-- `terminate_security_system`, mirroring `initialize_security_system`. -/
def terminate_security_system (env : Env) (st : ServerState) (now : Nat)
    (user : String) : String × ServerState :=
  if !env.gpioAvailable then
    ("⚠️ Security system requires Raspberry Pi with GPIO support. Running in simulation mode.", st)
  else
    let st1 := { st with securityActive := false }
    let st2 := log_event env st1 now "security_system_deactivated"
      ("Home security system deactivated by " ++ user) user
    let st3 := add_pending_notification env st2 now
      ("[NOTIFICATION] 🛡️ " ++ user ++ ": Home Security System TERMINATED at " ++ formatHMS now)
    ("✅ Home Security System TERMINATED. All modules deactivated.", st3)

/-- Leading-whitespace consumer for the schedule-time pattern (`\s+`). -/
def ws1 : List Char → Option (List Char)
  | [] => none
  | c :: cs => if c.isWhitespace then some (cs.dropWhile Char.isWhitespace) else none

/-- Digit-run value (`\d+` converted by `int`). -/
def natOfDigits (ds : List Char) : Nat :=
  ds.foldl (fun n c => n * 10 + (c.toNat - 48)) 0

/-- The ordered unit alternation of the schedule-time pattern. -/
def unitWords : List String := ["second", "seconds", "minute", "minutes", "hour", "hours"]

/-- First unit alternative matching at the head of the remaining text. -/
def matchUnit (l : List Char) : Option String :=
  unitWords.find? (fun u => listStartsWith u.data l)

/-- Try the pattern `in\s+(\d+)\s+(second|seconds|minute|minutes|hour|hours)`
anchored at the head of `l`. -/
def matchTimeAt : List Char → Option (Nat × String)
  | 'i' :: 'n' :: rest =>
    match ws1 rest with
    | none => none
    | some r1 =>
      if (r1.takeWhile Char.isDigit).isEmpty then none
      else
        match ws1 (r1.dropWhile Char.isDigit) with
        | none => none
        | some r3 =>
          (matchUnit r3).map (fun u => (natOfDigits (r1.takeWhile Char.isDigit), u))
  | _ => none

/-- `re.search`: leftmost occurrence of the schedule-time pattern. -/
def scanTime : List Char → Option (Nat × String)
  | [] => none
  | c :: cs =>
    match matchTimeAt (c :: cs) with
    | some r => some r
    | none => scanTime cs

/-- Extract `(amount, unit)` from the text, as the source's `re.search` does. -/
def extractTime (t : String) : Option (Nat × String) := scanTime t.data

/-- Seconds represented by `amount` of `unit` (`timedelta`). -/
def duration_of (n : Nat) (u : String) : Nat :=
  if strContains u "second" then n
  else if strContains u "minute" then n * 60
  else if strContains u "hour" then n * 3600
  else 0

/-- The scheduling sub-parser's own device matching (light first, then a bare
`'ac'`/`' air condition'` substring test, then washing machine). -/
def schedDeviceMatch (t : String) : Option String :=
  if strContains t "light" then some "light"
  else if strContains t "ac" || strContains t "air condition" then some "ac"
  else if strContains t "washing machine" then some "washing_machine"
  else none

/-- The fixed unsupported-format reply of the scheduling sub-parser. -/
def unsupportedFormatReply : String :=
  "⚠️ Unsupported schedule format. Try: 'Schedule light on in 30 seconds' or 'Schedule light on in 5 minutes' or 'Schedule ac off in 1 hour'"

/-- `_process_scheduled_command`: parse the time phrase, re-derive device and
action, create and persist one task, reply with the computed wall-clock time. -/
def process_scheduled_command (env : Env) (st : ServerState) (now : Nat)
    (text user : String) : String × ServerState :=
  match extractTime text with
  | some (amount, unit) =>
    if strContains unit "second" || strContains unit "minute" || strContains unit "hour" then
      let sched := now + duration_of amount unit
      match schedDeviceMatch text, actionMatch text with
      | some d, some a =>
        let task : Task :=
          { device := d, action := a, scheduled_time := sched, user_name := user }
        let st1 := { st with scheduledTasks := st.scheduledTasks ++ [task],
                             taskSaves := st.taskSaves + 1 }
        let disp := if a = "on" then "ON" else "OFF"
        let st2 := log_event env st1 now "scheduled_task_created"
          ("Scheduled " ++ get_device_user_name d ++ " to turn " ++ disp ++ " at " ++
            formatHMS sched) user
        ("⏰ Scheduled " ++ get_device_user_name d ++ " to turn " ++ disp ++ " at " ++
           formatHMS sched ++ ".", st2)
      | _, _ => ("⚠️ Could not determine device or action for scheduling.", st)
    else ("⚠️ Unsupported time unit. Please use seconds, minutes or hours.", st)
  | none => (unsupportedFormatReply, st)

/-- `process_home_automation`: lower the text, then the documented if/elif chain. -/
def process_home_automation (env : Env) (st : ServerState) (now : Nat)
    (text0 user : String) : String × ServerState :=
  let text := strLower text0
  match takenBranch text with
  | .sched => process_scheduled_command env st now text user
  | .washing => deviceBranch env st now "washing_machine" text user
  | .air => deviceBranch env st now "ac" text user
  | .lightB => deviceBranch env st now "light" text user
  | .security =>
    if secInitKw text then
      let r := init_security_system env st now user
      (r.1, log_event env r.2 now "security_system" "Security system initialized" user)
    else if secTermKw text then
      let r := terminate_security_system env st now user
      (r.1, log_event env r.2 now "security_system" "Security system terminated" user)
    else
      ("🛡️ Home Security System is currently " ++
         (if st.securityActive then "ACTIVE" else "INACTIVE") ++ ".", st)
  | .other => ("", st)

/-- Stable descending insertion by timestamp: the semantics of Python's
`log_entries.sort(key=lambda x: x['timestamp'], reverse=True)`. -/
def insertLogDesc (e : LogEntry) : List LogEntry → List LogEntry
  | [] => [e]
  | x :: xs =>
    if x.timestamp < e.timestamp then e :: x :: xs else x :: insertLogDesc e xs

/-- Stable sort of the event log, newest timestamp first. -/
def sortLogDesc : List LogEntry → List LogEntry
  | [] => []
  | x :: xs => insertLogDesc x (sortLogDesc xs)

/-- Rendering of `None` by a Python f-string. -/
def optStr : Option String → String
  | some s => s
  | none => "None"

/-- Rendering of an optional id by a Python f-string. -/
def optNat : Option Nat → String
  | some n => Nat.repr n
  | none => "None"

/-- The five lines `get_log_details` emits for the `i`-th (0-based) entry. -/
def logBlock (env : Env) (i : Nat) (e : LogEntry) : List String :=
  ["[" ++ padOrd (i + 1) ++ "] " ++ env.fmtTime e.timestamp,
   "     Type: " ++ e.event_type,
   "     User: " ++ optStr e.user_name ++ " (ID: " ++ optNat e.user_id ++ ")",
   "     Message: " ++ e.message,
   ""]

/-- The formatted blocks for a list of entries, with running ordinals. -/
def logBlocks (env : Env) (i : Nat) : List LogEntry → List String
  | [] => []
  | e :: es => logBlock env i e ++ logBlocks env (i + 1) es

/-- `get_log_details`: empty log yields the fixed message; otherwise a banner,
the total count, and the 20 most recent entries newest-first. -/
def get_log_details (env : Env) (entries : List LogEntry) : String :=
  let sorted := sortLogDesc entries
  if sorted.isEmpty then "No log entries found."
  else
    joinLines ([eq60, "DETAILED SERVER LOGS", eq60,
                "Total Events: " ++ Nat.repr entries.length, ""] ++
               logBlocks env 0 (sorted.take 20) ++ [eq60])

/-- The response layer's on/off keyword test (`generate_response` line 276). -/
def onoffKeywordHit (t : String) : Bool :=
  strContains t "turn on" || strContains t "turn off" ||
    strContains t "switch on" || strContains t "switch off"

/-- The response layer's own device detection used only for notifications
(light first, then a bare `'ac'`/`'air condition'` substring test, then
washing machine) — not the 4.1 matching. -/
def notifDevice (t : String) : Option String :=
  if strContains t "light" then some "light"
  else if strContains t "ac" || strContains t "air condition" then some "ac"
  else if strContains t "washing machine" then some "washing_machine"
  else none

/-- `'ON' if 'turn on' or 'switch on' else 'OFF'`. -/
def notifAction (t : String) : String :=
  if strContains t "turn on" || strContains t "switch on" then "ON" else "OFF"

/-- The device-control notification template
`"[NOTIFICATION] 🔔 {actor}: {device_display_name} turned {ON|OFF} at {HH:MM:SS}"`. -/
def deviceNotifText (user d act : String) (now : Nat) : String :=
  "[NOTIFICATION] 🔔 " ++ user ++ ": " ++ get_device_user_name d ++ " turned " ++
    act ++ " at " ++ formatHMS now

/-- The multi-line status reply of `generate_response`. -/
def statusMessage (st : ServerState) (user : String) : String :=
  "🏠 " ++ user ++ ", Current Device Status:\n" ++
    "• Light: " ++ pyTitle st.homeDevices.light ++ "\n" ++
    "• Air Conditioner: " ++ pyTitle st.homeDevices.ac ++ "\n" ++
    "• Washing Machine: " ++ pyTitle st.homeDevices.washing_machine ++ "\n" ++
    "• Home Security System: " ++ (if st.securityActive then "ACTIVE" else "INACTIVE") ++ "\n"

/-- `generate_response`: run the home-automation chain; on a device-control
keyword add a pending notification (whether or not actuation succeeded);
otherwise fall through to log details, greeting, help, status, or the
fallback reply. -/
def generate_response (env : Env) (st : ServerState) (now : Nat)
    (message : String) (_userId : Nat) (userName : String) : String × ServerState :=
  let r := process_home_automation env st now message userName
  let lower := strLower message
  if r.1 = "" then
    if strContains lower "log details" then (get_log_details env r.2.eventLog, r.2)
    else if strContains lower "hello" || strContains lower "hi" ||
        strContains lower "hey" || strContains lower "greetings" then
      ("Hello " ++ userName ++ "! Welcome to ToggleTalk Server!", r.2)
    else if strContains lower "help" || strContains lower "what can you do" ||
        strContains lower "commands" then
      ("Hello " ++ userName ++ "! I can help you control your home appliances and security system! Try commands like 'Turn on the light', 'Turn off the AC', 'Initialize security system', or 'Terminate security system'.", r.2)
    else if strContains lower "status" || strContains lower "state" ||
        strContains lower "how is" then
      (statusMessage r.2 userName, r.2)
    else
      ("Sorry " ++ userName ++ ", I didn't understand that command. Try saying 'Turn on the light' or 'Turn off the AC'.", r.2)
  else
    let st2 :=
      if onoffKeywordHit lower then
        match notifDevice lower with
        | some d =>
          add_pending_notification env r.2 now
            (deviceNotifText userName d (notifAction lower) now)
        | none => r.2
      else r.2
    (r.1, st2)

/-- `_execute_scheduled_task`: actuate first; only on success update the
registry, put the formatted message on the internal delivery queue, and log.
On failure the state is untouched (the error goes to the console only). -/
def execute_scheduled_task (env : Env) (st : ServerState) (now : Nat)
    (task : Task) : ServerState :=
  if control_gpio_device env task.device task.action then
    let st1 :=
      if hasDevice task.device then
        { st with homeDevices := setStatus st.homeDevices task.device task.action }
      else st
    let msg := deviceNotifText task.user_name task.device
      (if task.action = "on" then "ON" else "OFF") now
    let st2 := { st1 with notificationQueue := st1.notificationQueue ++ [msg] }
    log_event env st2 now "scheduled_task_executed" msg task.user_name
  else st

/-- `check_security_system`: while armed and on hardware, a high LDR reading
buzzes and appends an `[ALERT]` pending notification. -/
def check_security_system (env : Env) (st : ServerState) (now : Nat) : ServerState :=
  if !st.securityActive || !env.gpioAvailable then st
  else if env.ldrHigh then
    add_pending_notification env st now
      ("[ALERT] 🚨 Suspicious activity detected by Home Security System at " ++ formatHMS now)
  else st

/-- One iteration of `_scheduler_loop`: execute every due task in list order,
remove the executed tasks, persist once if anything was removed, then run
the security check while the subsystem is armed. -/
def scheduler_tick (env : Env) (st : ServerState) (now : Nat) : ServerState :=
  let due := st.scheduledTasks.filter (fun t => decide (t.scheduled_time ≤ now))
  let st1 := due.foldl (fun s t => execute_scheduled_task env s now t) st
  let st2 := { st1 with
    scheduledTasks := st.scheduledTasks.filter (fun t => decide (¬ t.scheduled_time ≤ now)) }
  let st3 := if due.isEmpty then st2 else { st2 with taskSaves := st2.taskSaves + 1 }
  if st3.securityActive then check_security_system env st3 now else st3

/-- Outcome of one attempt of `load_scheduled_tasks`: a decoded list (each
element `none` if its timestamp failed to validate), a JSON decode error, or
another I/O error. -/
inductive LoadAttempt
  | ok (tasks : List (Option Task))
  | decodeErr
  | otherErr
deriving DecidableEq

/-- Backup files created by one failed attempt (only decode errors back up). -/
def backupsOf : LoadAttempt → Nat
  | .decodeErr => 1
  | _ => 0

/-- `load_scheduled_tasks`: up to 3 attempts; a decode failure on a non-final
attempt backs the file up; exhaustion falls back to the empty list.  Returns
the loaded tasks and the number of backup files created. -/
def load_scheduled_tasks (fileExists : Bool) (att : Nat → LoadAttempt) :
    List Task × Nat :=
  if !fileExists then ([], 0)
  else
    match att 0 with
    | .ok ts => (ts.filterMap id, 0)
    | a0 =>
      match att 1 with
      | .ok ts => (ts.filterMap id, backupsOf a0)
      | a1 =>
        match att 2 with
        | .ok ts => (ts.filterMap id, backupsOf a0 + backupsOf a1)
        | _ => ([], backupsOf a0 + backupsOf a1)

/-- Security-command keyword test of the `/api/send_message` route. -/
def secCmdKeywordHit (t : String) : Bool :=
  strContains t "initialize" || strContains t "start" || strContains t "activate" ||
    strContains t "arm" || strContains t "terminate" || strContains t "stop" ||
    strContains t "deactivate" || strContains t "disarm"

/-- The `/api/send_message` handler: truncate oversized messages, register the
chat id, generate the response, then add the route's own raw-text
notification (skipped for schedule commands) to the pending list and the
delivery queue. -/
def send_message (env : Env) (st : ServerState) (now : Nat)
    (message0 userName : String) (userId : Nat) : String × ServerState :=
  let message := if message0.length > 1000 then strTake message0 1000 ++ "..." else message0
  let st0 := if st.chatIds.contains userId then st
             else { st with chatIds := st.chatIds ++ [userId] }
  let r := generate_response env st0 now message userId userName
  let lower := strLower message
  let st2 :=
    if onoffKeywordHit lower || strContains lower "schedule" then
      match notifDevice lower with
      | some _ =>
        if strContains lower "schedule" then r.2
        else
          let msg := "[NOTIFICATION] 🔔 " ++ userName ++ ": " ++ message ++ " at " ++ formatHMS now
          let st' := add_pending_notification env r.2 now msg
          { st' with notificationQueue := st'.notificationQueue ++ [msg] }
      | none => r.2
    else if secCmdKeywordHit lower then
      let msg := "[NOTIFICATION] 🔔 " ++ userName ++ ": " ++ message ++ " at " ++ formatHMS now
      let st' := add_pending_notification env r.2 now msg
      { st' with notificationQueue := st'.notificationQueue ++ [msg] }
    else r.2
  (r.1, st2)

/-- The freshly constructed server state: all appliances off, nothing armed,
all collections empty. -/
def st0 : ServerState :=
  { homeDevices := { light := "off", ac := "off", washing_machine := "off" },
    securityActive := false, pendingNotifications := [], scheduledTasks := [],
    eventLog := [], notificationQueue := [], chatIds := [], taskSaves := 0 }

/-- Simulation-mode environment: no GPIO bound, actuation always succeeds. -/
def simEnv : Env :=
  { gpioAvailable := false, gpioOk := fun _ _ _ => true, ldrHigh := false,
    hashId := fun _ _ => 0, isoFormat := fun n => Nat.repr n, fmtTime := fun s => s }

/-- Hardware environment whose every pin write fails. -/
def failEnv : Env :=
  { simEnv with gpioAvailable := true, gpioOk := fun _ _ _ => false }

/-- A small concrete event log used for concrete instantiations. -/
def sampleLog : List LogEntry :=
  [{ timestamp := "2024-01-01T08:00:00", event_type := "user_joined",
     message := "hi", user_name := some "Bob", user_id := none },
   { timestamp := "2024-01-02T09:30:00", event_type := "device_control",
     message := "Light turned ON", user_name := some "Alice", user_id := none }]

theorem actionMatch_cases {t a : String} (h : actionMatch t = some a) :
    a = "on" ∨ a = "off" := by
  unfold actionMatch at h
  split at h
  · exact Or.inl (Option.some.inj h).symm
  · split at h
    · exact Or.inr (Option.some.inj h).symm
    · exact absurd h (by simp)

theorem actionMatch_valid {t a : String} (h : actionMatch t = some a) :
    (a == "on" || a == "off") = true := by
  rcases actionMatch_cases h with rfl | rfl <;> decide

theorem deviceMatch41_cases {t d : String} (h : deviceMatch41 t = some d) :
    d = "washing_machine" ∨ d = "ac" ∨ d = "light" := by
  unfold deviceMatch41 at h
  split at h
  · exact Or.inl (Option.some.inj h).symm
  · split at h
    · exact Or.inr (Or.inl (Option.some.inj h).symm)
    · split at h
      · exact Or.inr (Or.inr (Option.some.inj h).symm)
      · exact absurd h (by simp)

theorem takenBranch_of_device {t d : String}
    (hs : schedKw t = false) (hd : deviceMatch41 t = some d) :
    (d = "washing_machine" ∧ takenBranch t = .washing) ∨
    (d = "ac" ∧ takenBranch t = .air) ∨
    (d = "light" ∧ takenBranch t = .lightB) := by
  unfold deviceMatch41 at hd
  unfold takenBranch
  split at hd
  · rename_i h1
    exact Or.inl ⟨(Option.some.inj hd).symm, by simp [hs, h1]⟩
  · split at hd
    · rename_i h1 h2
      exact Or.inr (Or.inl ⟨(Option.some.inj hd).symm, by simp [hs, h1, h2]⟩)
    · split at hd
      · rename_i h1 h2 h3
        exact Or.inr (Or.inr ⟨(Option.some.inj hd).symm, by simp [hs, h1, h2, h3]⟩)
      · exact absurd hd (by simp)

theorem control_gpio_false {env : Env} {d a : String}
    (hg : env.gpioAvailable = true)
    (hact : (a == "on" || a == "off") = true)
    (h0 : env.gpioOk d a 0 = false) (h1 : env.gpioOk d a 1 = false)
    (h2 : env.gpioOk d a 2 = false) :
    control_gpio_device env d a = false := by
  simp [control_gpio_device, hg, hact, h0, h1, h2]

theorem deviceBranch_fail {env : Env} {st : ServerState} {now : Nat}
    {d text user a : String}
    (ha : actionMatch text = some a)
    (hc : control_gpio_device env d a = false) :
    deviceBranch env st now d text user =
      ("⚠️ Error turning " ++ (if a = "on" then "on " else "off ") ++ devErrName d ++
         ". Please try again.",
       { st with homeDevices := setStatus st.homeDevices d a }) := by
  unfold deviceBranch
  rw [ha]
  simp [hc]

theorem add_pending_small {env : Env} {st : ServerState} {now : Nat} {text : String}
    (h : st.pendingNotifications.length < 100) :
    (add_pending_notification env st now text).pendingNotifications =
      st.pendingNotifications ++
        [⟨text, env.isoFormat now, env.hashId text (env.isoFormat now)⟩] := by
  unfold add_pending_notification
  simp only []
  rw [if_neg]
  simp [List.length_append]
  omega

theorem add_pending_frame (env : Env) (st : ServerState) (now : Nat) (text : String) :
    (add_pending_notification env st now text).scheduledTasks = st.scheduledTasks ∧
    (add_pending_notification env st now text).taskSaves = st.taskSaves ∧
    (add_pending_notification env st now text).securityActive = st.securityActive ∧
    (add_pending_notification env st now text).eventLog = st.eventLog ∧
    (add_pending_notification env st now text).homeDevices = st.homeDevices := by
  unfold add_pending_notification
  constructor
  · rfl
  · exact ⟨rfl, rfl, rfl, rfl⟩

theorem generate_response_reply_of_ne {env : Env} {st : ServerState} {now uid : Nat}
    {m u : String}
    (h : (process_home_automation env st now m u).1 ≠ "") :
    (generate_response env st now m uid u).1 =
      (process_home_automation env st now m u).1 := by
  unfold generate_response
  simp only []
  rw [if_neg h]

/-- Claim C1 (amended): for every on/off command routed to a known device's
branch, if the actuation capability fails on all 3 attempts then
`process_home_automation` returns an error reply, and the device's status in
the Device Registry has been set to the requested action (the interpreter
writes the status before attempting actuation and does not revert it on
failure); all other state is unchanged. -/
theorem claim_c1_amended (env : Env) (st : ServerState) (now : Nat)
    (text0 user d a : String)
    (hs : schedKw (strLower text0) = false)
    (hd : deviceMatch41 (strLower text0) = some d)
    (ha : actionMatch (strLower text0) = some a)
    (hg : env.gpioAvailable = true)
    (h0 : env.gpioOk d a 0 = false) (h1 : env.gpioOk d a 1 = false)
    (h2 : env.gpioOk d a 2 = false) :
    process_home_automation env st now text0 user =
      ("⚠️ Error turning " ++ (if a = "on" then "on " else "off ") ++ devErrName d ++
         ". Please try again.",
       { st with homeDevices := setStatus st.homeDevices d a }) := by
  have hc : control_gpio_device env d a = false :=
    control_gpio_false hg (actionMatch_valid ha) h0 h1 h2
  simp only [process_home_automation]
  rcases takenBranch_of_device hs hd with ⟨rfl, hb⟩ | ⟨rfl, hb⟩ | ⟨rfl, hb⟩ <;>
    rw [hb] <;> exact deviceBranch_fail ha hc

/-- Counterexample to claim C1 as stated: with every GPIO attempt failing,
`Interpret("turn on the washing machine", ...)` returns the error reply, yet
the washing machine's registry status changes from `off` to `on`. -/
theorem claim_c1_counterexample :
    (process_home_automation failEnv st0 5 "turn on the washing machine" "Alice").1 =
      "⚠️ Error turning on Washing Machine. Please try again." ∧
    st0.homeDevices.washing_machine = "off" ∧
    (process_home_automation failEnv st0 5 "turn on the washing machine"
        "Alice").2.homeDevices.washing_machine = "on" := by
  decide

/-- Witness for the amended claim C1 at a concrete failing environment. -/
theorem claim_c1_witness :
    schedKw (strLower "turn on the washing machine") = false ∧
    deviceMatch41 (strLower "turn on the washing machine") = some "washing_machine" ∧
    actionMatch (strLower "turn on the washing machine") = some "on" ∧
    failEnv.gpioAvailable = true ∧
    process_home_automation failEnv st0 5 "turn on the washing machine" "Alice" =
      ("⚠️ Error turning " ++ (if "on" = "on" then "on " else "off ") ++
         devErrName "washing_machine" ++ ". Please try again.",
       { st0 with homeDevices := setStatus st0.homeDevices "washing_machine" "on" }) :=
  ⟨by decide, by decide, by decide, rfl,
   claim_c1_amended failEnv st0 5 "turn on the washing machine" "Alice"
     "washing_machine" "on" (by decide) (by decide) (by decide) rfl rfl rfl rfl⟩

/-- Claim C5 (confirmed): after every `add_pending_notification` call the
pending collection holds at most 100 entries, and the result is exactly the
suffix of the appended list that drops the oldest entries by insertion
order, keeping the most recent 100. -/
theorem claim_c5 (env : Env) (st : ServerState) (now : Nat) (text : String) :
    (add_pending_notification env st now text).pendingNotifications.length ≤ 100 ∧
    (add_pending_notification env st now text).pendingNotifications =
      (st.pendingNotifications ++
        [(⟨text, env.isoFormat now, env.hashId text (env.isoFormat now)⟩ : Notification)]).drop
        (st.pendingNotifications.length + 1 - 100) := by
  unfold add_pending_notification
  simp only []
  by_cases hc :
      (st.pendingNotifications ++
        [(⟨text, env.isoFormat now, env.hashId text (env.isoFormat now)⟩ : Notification)]).length > 100
  · rw [if_pos hc]
    have hlen : (st.pendingNotifications ++
        [(⟨text, env.isoFormat now, env.hashId text (env.isoFormat now)⟩ : Notification)]).length =
        st.pendingNotifications.length + 1 := by simp
    constructor
    · rw [List.length_drop]
      omega
    · rw [hlen]
  · rw [if_neg hc]
    have hlen : (st.pendingNotifications ++
        [(⟨text, env.isoFormat now, env.hashId text (env.isoFormat now)⟩ : Notification)]).length =
        st.pendingNotifications.length + 1 := by simp
    have h0 : st.pendingNotifications.length + 1 - 100 = 0 := by omega
    constructor
    · omega
    · rw [h0, List.drop_zero]

/-- Witness for claim C5 at a concrete call. -/
theorem claim_c5_witness :
    (add_pending_notification simEnv st0 5 "hello").pendingNotifications.length ≤ 100 ∧
    (add_pending_notification simEnv st0 5 "hello").pendingNotifications =
      (st0.pendingNotifications ++
        [(⟨"hello", simEnv.isoFormat 5, simEnv.hashId "hello" (simEnv.isoFormat 5)⟩ : Notification)]).drop
        (st0.pendingNotifications.length + 1 - 100) :=
  claim_c5 simEnv st0 5 "hello"

/-- Claim C10 (confirmed): with no hardware actuation capability bound
(simulation mode), every security initialize or terminate command returns
the warning reply, leaves the security-system active flag unchanged,
enqueues no pending notification — yet the interpreter still appends a
`security_system` event-log entry for it. -/
theorem claim_c10 (env : Env) (st : ServerState) (now : Nat) (text0 user : String)
    (hg : env.gpioAvailable = false)
    (hb : takenBranch (strLower text0) = Branch.security)
    (ha : secInitKw (strLower text0) = true ∨
          (secInitKw (strLower text0) = false ∧ secTermKw (strLower text0) = true)) :
    (process_home_automation env st now text0 user).1 =
      "⚠️ Security system requires Raspberry Pi with GPIO support. Running in simulation mode." ∧
    (process_home_automation env st now text0 user).2.securityActive = st.securityActive ∧
    (process_home_automation env st now text0 user).2.pendingNotifications =
      st.pendingNotifications ∧
    (process_home_automation env st now text0 user).2.eventLog =
      st.eventLog ++
        [{ timestamp := env.isoFormat now, event_type := "security_system",
           message := if secInitKw (strLower text0) = true then "Security system initialized"
                      else "Security system terminated",
           user_name := some user, user_id := none }] := by
  simp only [process_home_automation]
  rw [hb]
  rcases ha with hi | ⟨hi, ht⟩
  · rw [if_pos hi]
    simp [init_security_system, hg, log_event, hi]
  · rw [if_neg (by simp [hi]), if_pos ht]
    simp [terminate_security_system, hg, log_event, hi]

/-- Witness for claim C10: `"arm security"` in simulation mode. -/
theorem claim_c10_witness :
    simEnv.gpioAvailable = false ∧
    takenBranch (strLower "arm security") = Branch.security ∧
    secInitKw (strLower "arm security") = true ∧
    ((process_home_automation simEnv st0 7 "arm security" "Bob").1 =
      "⚠️ Security system requires Raspberry Pi with GPIO support. Running in simulation mode." ∧
    (process_home_automation simEnv st0 7 "arm security" "Bob").2.securityActive =
      st0.securityActive ∧
    (process_home_automation simEnv st0 7 "arm security" "Bob").2.pendingNotifications =
      st0.pendingNotifications ∧
    (process_home_automation simEnv st0 7 "arm security" "Bob").2.eventLog =
      st0.eventLog ++
        [{ timestamp := simEnv.isoFormat 7, event_type := "security_system",
           message := if secInitKw (strLower "arm security") = true
                      then "Security system initialized" else "Security system terminated",
           user_name := some "Bob", user_id := none }]) :=
  ⟨rfl, by decide, by decide,
   claim_c10 simEnv st0 7 "arm security" "Bob" rfl (by decide) (Or.inl (by decide))⟩

/-- Claim C4 (confirmed): the interpreter matches in the documented fixed
order — a text containing `schedule`/`timer` is delegated to the scheduling
sub-parser immediately; otherwise device keywords are checked in the
precedence washing machine, then air-conditioner, then light, then
security; and `Interpret("turn on the washing machine", "Alice", 1)` (under
an environment whose actuation succeeds) returns the success reply
mentioning `Washing Machine` without taking the air-conditioner branch. -/
theorem claim_c4 :
    (∀ (env : Env) (st : ServerState) (now : Nat) (text0 user : String),
       schedKw (strLower text0) = true →
       process_home_automation env st now text0 user =
         process_scheduled_command env st now (strLower text0) user) ∧
    (∀ t, schedKw t = false → strContains t "washing machine" = true →
       takenBranch t = Branch.washing) ∧
    (∀ t, schedKw t = false → strContains t "washing machine" = false →
       acHeuristic t = true → takenBranch t = Branch.air) ∧
    (∀ t, schedKw t = false → strContains t "washing machine" = false →
       acHeuristic t = false → strContains t "light" = true →
       takenBranch t = Branch.lightB) ∧
    (∀ t, schedKw t = false → strContains t "washing machine" = false →
       acHeuristic t = false → strContains t "light" = false → securityKw t = true →
       takenBranch t = Branch.security) ∧
    (∀ (env : Env) (st : ServerState) (now : Nat),
       control_gpio_device env "washing_machine" "on" = true →
       (generate_response env st now "turn on the washing machine" 1 "Alice").1 =
         "✅ Washing Machine turned ON.") ∧
    takenBranch (strLower "turn on the washing machine") ≠ Branch.air := by
  refine ⟨?_, ?_, ?_, ?_, ?_, ?_, by decide⟩
  · intro env st now text0 user h
    have hb : takenBranch (strLower text0) = Branch.sched := by simp [takenBranch, h]
    simp only [process_home_automation]
    rw [hb]
  · intro t h1 h2
    simp [takenBranch, h1, h2]
  · intro t h1 h2 h3
    simp [takenBranch, h1, h2, h3]
  · intro t h1 h2 h3 h4
    simp [takenBranch, h1, h2, h3, h4]
  · intro t h1 h2 h3 h4 h5
    simp [takenBranch, h1, h2, h3, h4, h5]
  · intro env st now hctl
    have hb : takenBranch (strLower "turn on the washing machine") = Branch.washing := by
      decide
    have ha : actionMatch (strLower "turn on the washing machine") = some "on" := by
      decide
    have hp : (process_home_automation env st now "turn on the washing machine" "Alice").1 =
        "✅ Washing Machine turned ON." := by
      simp only [process_home_automation]
      rw [hb]
      simp only [deviceBranch]
      rw [ha]
      simp only [hctl, if_true]
      decide
    have hne : (process_home_automation env st now "turn on the washing machine" "Alice").1 ≠
        "" := by
      rw [hp]; decide
    rw [generate_response_reply_of_ne hne, hp]

/-- Witness for claim C4 at concrete inputs. -/
theorem claim_c4_witness :
    (schedKw (strLower "schedule the light soon") = true ∧
      process_home_automation simEnv st0 0 "schedule the light soon" "A" =
        process_scheduled_command simEnv st0 0 (strLower "schedule the light soon") "A") ∧
    (control_gpio_device simEnv "washing_machine" "on" = true ∧
      (generate_response simEnv st0 5 "turn on the washing machine" 1 "Alice").1 =
        "✅ Washing Machine turned ON.") :=
  ⟨⟨by decide, claim_c4.1 simEnv st0 0 "schedule the light soon" "A" (by decide)⟩,
   ⟨by decide, claim_c4.2.2.2.2.2.1 simEnv st0 5 (by decide)⟩⟩

/-- Claim C2 (amended): whenever the interpreter produces a device reply for a
message containing an on/off keyword and the response layer's own device
heuristic (light first, then a bare `ac`/`air condition` substring test,
then washing machine) finds a device, exactly one pending notification is
enqueued — regardless of whether actuation succeeded — formatted
`"[NOTIFICATION] 🔔 {actor}: {name} turned {ON|OFF} at {HH:MM:SS}"`, where
the name comes from that heuristic and can differ from the device actually
actuated. -/
theorem claim_c2_amended (env : Env) (st : ServerState) (now uid : Nat)
    (text user d : String)
    (h1 : (process_home_automation env st now text user).1 ≠ "")
    (h2 : onoffKeywordHit (strLower text) = true)
    (h3 : notifDevice (strLower text) = some d)
    (h4 : (process_home_automation env st now text user).2.pendingNotifications.length < 100) :
    (generate_response env st now text uid user).1 =
      (process_home_automation env st now text user).1 ∧
    (generate_response env st now text uid user).2.pendingNotifications =
      (process_home_automation env st now text user).2.pendingNotifications ++
        [(⟨deviceNotifText user d (notifAction (strLower text)) now,
           env.isoFormat now,
           env.hashId (deviceNotifText user d (notifAction (strLower text)) now)
             (env.isoFormat now)⟩ : Notification)] := by
  refine ⟨generate_response_reply_of_ne h1, ?_⟩
  unfold generate_response
  simp only []
  rw [if_neg h1, if_pos h2, h3]
  exact add_pending_small h4

/-- Counterexample to claim C2 as stated: on success the notification names a
device chosen by the notifier's own heuristic (`'ac'` matches inside
`"machine"`), not the device actuated; and on actuation failure a pending
notification is still enqueued. -/
theorem claim_c2_counterexample :
    (generate_response simEnv st0 5 "turn on the washing machine" 1 "Alice").1 =
      "✅ Washing Machine turned ON." ∧
    ((generate_response simEnv st0 5 "turn on the washing machine"
        1 "Alice").2.pendingNotifications.map Notification.text =
      ["[NOTIFICATION] 🔔 Alice: Air Conditioner turned ON at 00:00:05"]) ∧
    (generate_response failEnv st0 5 "turn on the light" 1 "Alice").1 =
      "⚠️ Error turning on light. Please try again." ∧
    ((generate_response failEnv st0 5 "turn on the light"
        1 "Alice").2.pendingNotifications.map Notification.text =
      ["[NOTIFICATION] 🔔 Alice: Light turned ON at 00:00:05"]) := by
  decide

/-- Witness for the amended claim C2 at a concrete successful command. -/
theorem claim_c2_witness :
    (generate_response simEnv st0 5 "turn on the light" 1 "Alice").1 =
      (process_home_automation simEnv st0 5 "turn on the light" "Alice").1 ∧
    (generate_response simEnv st0 5 "turn on the light" 1 "Alice").2.pendingNotifications =
      (process_home_automation simEnv st0 5 "turn on the light"
          "Alice").2.pendingNotifications ++
        [(⟨deviceNotifText "Alice" "light" (notifAction (strLower "turn on the light")) 5,
           simEnv.isoFormat 5,
           simEnv.hashId
             (deviceNotifText "Alice" "light" (notifAction (strLower "turn on the light")) 5)
             (simEnv.isoFormat 5)⟩ : Notification)] :=
  claim_c2_amended simEnv st0 5 1 "turn on the light" "Alice" "light"
    (by decide) (by decide) (by decide) (by decide)

/-- A matched unit string is one of the six alternatives of the pattern. -/
theorem matchUnit_mem {l : List Char} {u : String} (h : matchUnit l = some u) :
    u ∈ unitWords :=
  List.mem_of_find?_eq_some h

/-- The unit extracted by `matchTimeAt` is one of the pattern's alternatives. -/
theorem matchTimeAt_unit {l : List Char} {n : Nat} {u : String}
    (h : matchTimeAt l = some (n, u)) : u ∈ unitWords := by
  unfold matchTimeAt at h
  split at h
  · split at h
    · simp at h
    · split at h
      · simp at h
      · split at h
        · simp at h
        · rcases Option.map_eq_some'.mp h with ⟨u', hu, he⟩
          cases he
          exact matchUnit_mem hu
  · simp at h

/-- The unit extracted by `scanTime` is one of the pattern's alternatives. -/
theorem scanTime_unit : ∀ (l : List Char) (n : Nat) (u : String),
    scanTime l = some (n, u) → u ∈ unitWords := by
  intro l
  induction l with
  | nil => intro n u h; simp [scanTime] at h
  | cons c cs ih =>
    intro n u h
    unfold scanTime at h
    split at h
    · rename_i r hr
      cases h
      exact matchTimeAt_unit hr
    · exact ih n u h

/-- The unit extracted by `extractTime` is one of the pattern's alternatives. -/
theorem extractTime_unit {t : String} {n : Nat} {u : String}
    (h : extractTime t = some (n, u)) : u ∈ unitWords :=
  scanTime_unit t.data n u h

/-- Every unit alternative passes the `second`/`minute`/`hour` guard. -/
theorem unitWords_sec {u : String} (h : u ∈ unitWords) :
    (strContains u "second" || strContains u "minute" || strContains u "hour") = true := by
  fin_cases h <;> decide

/-- Claim C9 (confirmed): a schedule/timer command with no `in N unit` phrase
gets the fixed unsupported-format reply and no task; one whose device and
action are determined creates exactly one task with
`due_at = now + duration(amount, unit)`, persists it, and the reply echoes
the computed wall-clock time. -/
theorem claim_c9 :
    (∀ (env : Env) (st : ServerState) (now : Nat) (text user : String),
       extractTime text = none →
       process_scheduled_command env st now text user = (unsupportedFormatReply, st)) ∧
    (∀ (env : Env) (st : ServerState) (now : Nat) (text user : String)
       (n : Nat) (u d a : String),
       extractTime text = some (n, u) →
       schedDeviceMatch text = some d → actionMatch text = some a →
       (process_scheduled_command env st now text user).2.scheduledTasks =
         st.scheduledTasks ++
           [{ device := d, action := a, scheduled_time := now + duration_of n u,
              user_name := user }] ∧
       (process_scheduled_command env st now text user).2.taskSaves = st.taskSaves + 1 ∧
       (process_scheduled_command env st now text user).1 =
         "⏰ Scheduled " ++ get_device_user_name d ++ " to turn " ++
           (if a = "on" then "ON" else "OFF") ++ " at " ++
           formatHMS (now + duration_of n u) ++ ".") := by
  constructor
  · intro env st now text user h
    unfold process_scheduled_command
    rw [h]
  · intro env st now text user n u d a hext hd ha
    have hu : (strContains u "second" || strContains u "minute" || strContains u "hour") =
        true := unitWords_sec (extractTime_unit hext)
    unfold process_scheduled_command
    rw [hext, hd, ha]
    simp [hu, log_event]

/-- Witness for claim C9: both the no-match and the task-creating paths. -/
theorem claim_c9_witness :
    (extractTime "schedule the light" = none ∧
      process_scheduled_command simEnv st0 0 "schedule the light" "A" =
        (unsupportedFormatReply, st0)) ∧
    (extractTime "schedule turn on light in 5 seconds" = some (5, "second") ∧
      schedDeviceMatch "schedule turn on light in 5 seconds" = some "light" ∧
      actionMatch "schedule turn on light in 5 seconds" = some "on" ∧
      ((process_scheduled_command simEnv st0 0 "schedule turn on light in 5 seconds"
          "A").2.scheduledTasks =
        st0.scheduledTasks ++
          [{ device := "light", action := "on",
             scheduled_time := 0 + duration_of 5 "second", user_name := "A" }] ∧
      (process_scheduled_command simEnv st0 0 "schedule turn on light in 5 seconds"
          "A").2.taskSaves = st0.taskSaves + 1 ∧
      (process_scheduled_command simEnv st0 0 "schedule turn on light in 5 seconds"
          "A").1 =
        "⏰ Scheduled " ++ get_device_user_name "light" ++ " to turn " ++
          (if "on" = "on" then "ON" else "OFF") ++ " at " ++
          formatHMS (0 + duration_of 5 "second") ++ ".")) :=
  ⟨⟨by decide, claim_c9.1 simEnv st0 0 "schedule the light" "A" (by decide)⟩,
   ⟨by decide, by decide, by decide,
    claim_c9.2 simEnv st0 0 "schedule turn on light in 5 seconds" "A" 5 "second"
      "light" "on" (by decide) (by decide) (by decide)⟩⟩

/-- Claim C3 (amended): the scheduling sub-parser re-derives device and action
from the text itself, and a command whose device or action cannot be
determined yields the error reply with no task persisted and no state
change; however its device heuristics (light first, then a bare
`ac`/`air condition` substring, then washing machine) are NOT the same as
the 4.1 interpreter's matching (washing machine first, then the loose
token-based air-conditioner heuristics, then light): the two disagree on
some texts. -/
theorem claim_c3_amended :
    (∀ (env : Env) (st : ServerState) (now : Nat) (text user : String) (n : Nat)
       (u : String),
       extractTime text = some (n, u) →
       (schedDeviceMatch text = none ∨ actionMatch text = none) →
       process_scheduled_command env st now text user =
         ("⚠️ Could not determine device or action for scheduling.", st)) ∧
    ¬ (∀ t, schedDeviceMatch t = deviceMatch41 t) := by
  constructor
  · intro env st now text user n u hext hor
    have hu : (strContains u "second" || strContains u "minute" || strContains u "hour") =
        true := unitWords_sec (extractTime_unit hext)
    unfold process_scheduled_command
    rw [hext]
    rcases hor with hnone | hnone
    · rw [hnone]
      simp [hu]
    · rcases hd : schedDeviceMatch text with _ | d
      · simp [hu]
      · rw [hnone]
        simp [hu]
  · intro h
    exact absurd (h "washing machine") (by decide)

/-- Counterexample to claim C3 as stated: on
`"schedule turn on washing machine in 5 minutes"` the scheduling sub-parser
derives device `ac` (because `'ac'` occurs inside `"machine"`) while the 4.1
matching derives `washing_machine`; the persisted task actually targets the
air conditioner. -/
theorem claim_c3_counterexample :
    schedDeviceMatch (strLower "schedule turn on washing machine in 5 minutes") =
      some "ac" ∧
    deviceMatch41 (strLower "schedule turn on washing machine in 5 minutes") =
      some "washing_machine" ∧
    ((process_home_automation simEnv st0 0 "schedule turn on washing machine in 5 minutes"
        "Alice").2.scheduledTasks.map Task.device = ["ac"]) := by
  decide

/-- Witness for the amended claim C3: a schedule command with a valid time
phrase but no recognizable device is rejected without persisting a task. -/
theorem claim_c3_witness :
    extractTime "schedule it in 5 minutes" = some (5, "minute") ∧
    schedDeviceMatch "schedule it in 5 minutes" = none ∧
    process_scheduled_command simEnv st0 0 "schedule it in 5 minutes" "A" =
      ("⚠️ Could not determine device or action for scheduling.", st0) :=
  ⟨by decide, by decide,
   claim_c3_amended.1 simEnv st0 0 "schedule it in 5 minutes" "A" 5 "minute"
     (by decide) (Or.inl (by decide))⟩

/-- A failed actuation leaves the state of `execute_scheduled_task` untouched. -/
theorem exec_fail {env : Env} {st : ServerState} {now : Nat} {task : Task}
    (h : control_gpio_device env task.device task.action = false) :
    execute_scheduled_task env st now task = st := by
  simp [execute_scheduled_task, h]

/-- A successful scheduled actuation updates the registry, queues the
formatted message on the internal delivery queue, and logs — touching
neither the pending notifications nor the task list. -/
theorem exec_success (env : Env) (st : ServerState) (now : Nat) (task : Task)
    (h : control_gpio_device env task.device task.action = true) :
    (execute_scheduled_task env st now task).pendingNotifications =
      st.pendingNotifications ∧
    (execute_scheduled_task env st now task).notificationQueue =
      st.notificationQueue ++
        [deviceNotifText task.user_name task.device
          (if task.action = "on" then "ON" else "OFF") now] ∧
    (execute_scheduled_task env st now task).homeDevices =
      (if hasDevice task.device then setStatus st.homeDevices task.device task.action
       else st.homeDevices) ∧
    (execute_scheduled_task env st now task).eventLog =
      st.eventLog ++
        [{ timestamp := env.isoFormat now, event_type := "scheduled_task_executed",
           message := deviceNotifText task.user_name task.device
             (if task.action = "on" then "ON" else "OFF") now,
           user_name := some task.user_name, user_id := none }] ∧
    (execute_scheduled_task env st now task).scheduledTasks = st.scheduledTasks ∧
    (execute_scheduled_task env st now task).taskSaves = st.taskSaves := by
  unfold execute_scheduled_task
  rw [if_pos h]
  by_cases hd : hasDevice task.device = true <;> simp [hd, log_event]

/-- `execute_scheduled_task` never touches the task list, the save counter,
or the armed flag. -/
theorem exec_frame (env : Env) (st : ServerState) (now : Nat) (task : Task) :
    (execute_scheduled_task env st now task).scheduledTasks = st.scheduledTasks ∧
    (execute_scheduled_task env st now task).taskSaves = st.taskSaves ∧
    (execute_scheduled_task env st now task).securityActive = st.securityActive := by
  unfold execute_scheduled_task
  by_cases h : control_gpio_device env task.device task.action = true
  · rw [if_pos h]
    by_cases hd : hasDevice task.device = true <;> simp [hd, log_event]
  · rw [if_neg h]
    exact ⟨rfl, rfl, rfl⟩

/-- Folding task execution over a list preserves the same three fields. -/
theorem foldl_exec_frame (env : Env) (now : Nat) :
    ∀ (ts : List Task) (st : ServerState),
      (ts.foldl (fun s t => execute_scheduled_task env s now t) st).scheduledTasks =
        st.scheduledTasks ∧
      (ts.foldl (fun s t => execute_scheduled_task env s now t) st).taskSaves =
        st.taskSaves ∧
      (ts.foldl (fun s t => execute_scheduled_task env s now t) st).securityActive =
        st.securityActive := by
  intro ts
  induction ts with
  | nil => intro st; exact ⟨rfl, rfl, rfl⟩
  | cons t ts ih =>
    intro st
    have h1 := exec_frame env st now t
    have h2 := ih (execute_scheduled_task env st now t)
    simp only [List.foldl_cons]
    exact ⟨h2.1.trans h1.1, h2.2.1.trans h1.2.1, h2.2.2.trans h1.2.2⟩

/-- The security check never touches the task list or the save counter. -/
theorem check_security_frame (env : Env) (st : ServerState) (now : Nat) :
    (check_security_system env st now).scheduledTasks = st.scheduledTasks ∧
    (check_security_system env st now).taskSaves = st.taskSaves := by
  unfold check_security_system
  split
  · exact ⟨rfl, rfl⟩
  · split
    · exact ⟨(add_pending_frame _ _ _ _).1, (add_pending_frame _ _ _ _).2.1⟩
    · exact ⟨rfl, rfl⟩

/-- After a tick exactly the due tasks are gone from the pending set. -/
theorem tick_tasks (env : Env) (st : ServerState) (now : Nat) :
    (scheduler_tick env st now).scheduledTasks =
      st.scheduledTasks.filter (fun t => decide (¬ t.scheduled_time ≤ now)) := by
  simp only [scheduler_tick]
  split <;> split <;>
    first
      | (rw [(check_security_frame _ _ _).1])
      | rfl

/-- The pending set is persisted exactly once per tick when a task was due. -/
theorem tick_saves (env : Env) (st : ServerState) (now : Nat) :
    (scheduler_tick env st now).taskSaves =
      st.taskSaves +
        (if (st.scheduledTasks.filter (fun t => decide (t.scheduled_time ≤ now))).isEmpty
         then 0 else 1) := by
  have hf := foldl_exec_frame env now
    (st.scheduledTasks.filter (fun t => decide (t.scheduled_time ≤ now))) st
  simp only [scheduler_tick]
  split <;> split <;>
    first
      | (rw [(check_security_frame _ _ _).2]; simp [hf.2.1])
      | simp [hf.2.1]

/-- Claim C6 (amended): on each tick every due task is executed and removed
whether or not actuation succeeds (at-most-once, never retried), with no
notification of any kind on failure; on success the registry is updated and
a notification in the 4.1 format is put on the INTERNAL delivery queue (not
the pending-notification list consumed by polling clients); the task list
is persisted exactly once per tick when any removal occurred. -/
theorem claim_c6_amended :
    (∀ (env : Env) (st : ServerState) (now : Nat) (task : Task),
       control_gpio_device env task.device task.action = false →
       execute_scheduled_task env st now task = st) ∧
    (∀ (env : Env) (st : ServerState) (now : Nat) (task : Task),
       control_gpio_device env task.device task.action = true →
       (execute_scheduled_task env st now task).pendingNotifications =
         st.pendingNotifications ∧
       (execute_scheduled_task env st now task).notificationQueue =
         st.notificationQueue ++
           [deviceNotifText task.user_name task.device
             (if task.action = "on" then "ON" else "OFF") now] ∧
       (execute_scheduled_task env st now task).homeDevices =
         (if hasDevice task.device then setStatus st.homeDevices task.device task.action
          else st.homeDevices) ∧
       (execute_scheduled_task env st now task).eventLog =
         st.eventLog ++
           [{ timestamp := env.isoFormat now, event_type := "scheduled_task_executed",
              message := deviceNotifText task.user_name task.device
                (if task.action = "on" then "ON" else "OFF") now,
              user_name := some task.user_name, user_id := none }] ∧
       (execute_scheduled_task env st now task).scheduledTasks = st.scheduledTasks ∧
       (execute_scheduled_task env st now task).taskSaves = st.taskSaves) ∧
    (∀ (env : Env) (st : ServerState) (now : Nat),
       (scheduler_tick env st now).scheduledTasks =
         st.scheduledTasks.filter (fun t => decide (¬ t.scheduled_time ≤ now)) ∧
       (scheduler_tick env st now).taskSaves =
         st.taskSaves +
           (if (st.scheduledTasks.filter
                 (fun t => decide (t.scheduled_time ≤ now))).isEmpty
            then 0 else 1)) :=
  ⟨fun _ _ _ _ h => exec_fail h,
   fun env st now task h => exec_success env st now task h,
   fun env st now => ⟨tick_tasks env st now, tick_saves env st now⟩⟩

/-- Counterexample to claim C6 as stated: a successful scheduled execution
puts its notification only on the internal delivery queue and enqueues NO
pending notification, while the interactive path for the same command
enqueues a pending notification and touches no queue — the two notification
paths are not the same. -/
theorem claim_c6_counterexample :
    (execute_scheduled_task simEnv st0 5
        { device := "light", action := "on", scheduled_time := 0,
          user_name := "Bob" }).pendingNotifications = [] ∧
    (execute_scheduled_task simEnv st0 5
        { device := "light", action := "on", scheduled_time := 0,
          user_name := "Bob" }).notificationQueue =
      ["[NOTIFICATION] 🔔 Bob: Light turned ON at 00:00:05"] ∧
    ((generate_response simEnv st0 5 "turn on the light" 1
        "Bob").2.pendingNotifications.map Notification.text =
      ["[NOTIFICATION] 🔔 Bob: Light turned ON at 00:00:05"]) ∧
    (generate_response simEnv st0 5 "turn on the light" 1 "Bob").2.notificationQueue = [] := by
  decide

/-- Witness for the amended claim C6: a failing scheduled actuation leaves the
state untouched (no retry record, no notification), and the tick clause at a
concrete state. -/
theorem claim_c6_witness :
    (control_gpio_device failEnv "light" "on" = false ∧
      execute_scheduled_task failEnv st0 5
        { device := "light", action := "on", scheduled_time := 0,
          user_name := "Bob" } = st0) ∧
    (scheduler_tick simEnv
        { st0 with scheduledTasks :=
            [{ device := "light", action := "on", scheduled_time := 0,
               user_name := "Bob" }] } 5).scheduledTasks =
      ({ st0 with scheduledTasks :=
          [{ device := "light", action := "on", scheduled_time := 0,
             user_name := "Bob" }] } : ServerState).scheduledTasks.filter
        (fun t => decide (¬ t.scheduled_time ≤ 5)) :=
  ⟨⟨by decide, claim_c6_amended.1 failEnv st0 5 _ (by decide)⟩,
   (claim_c6_amended.2.2 simEnv
     { st0 with scheduledTasks :=
         [{ device := "light", action := "on", scheduled_time := 0,
            user_name := "Bob" }] } 5).1⟩

/-- Claim C7 (confirmed): when every attempt to decode the scheduled-tasks
file fails, the loader returns the empty list after 3 attempts, having
created backup files of the corrupted original, without raising; a first
attempt that decodes simply returns the validated tasks. -/
theorem claim_c7 :
    (∀ att : Nat → LoadAttempt,
       att 0 = LoadAttempt.decodeErr → att 1 = LoadAttempt.decodeErr →
       att 2 = LoadAttempt.decodeErr →
       load_scheduled_tasks true att = ([], 2)) ∧
    (∀ (att : Nat → LoadAttempt) (ts : List (Option Task)),
       att 0 = LoadAttempt.ok ts →
       load_scheduled_tasks true att = (ts.filterMap id, 0)) := by
  constructor
  · intro att h0 h1 h2
    simp [load_scheduled_tasks, h0, h1, h2, backupsOf]
  · intro att ts h0
    simp [load_scheduled_tasks, h0]

/-- Witness for claim C7: a permanently corrupted file. -/
theorem claim_c7_witness :
    ((fun _ : Nat => LoadAttempt.decodeErr) 0 = LoadAttempt.decodeErr) ∧
    load_scheduled_tasks true (fun _ => LoadAttempt.decodeErr) = ([], 2) :=
  ⟨rfl, claim_c7.1 (fun _ => LoadAttempt.decodeErr) rfl rfl rfl⟩

/-- Inserting into the descending-sorted list is a permutation of consing. -/
theorem insertLogDesc_perm (e : LogEntry) (l : List LogEntry) :
    (insertLogDesc e l).Perm (e :: l) := by
  induction l with
  | nil => simp [insertLogDesc]
  | cons x xs ih =>
    unfold insertLogDesc
    split
    · exact List.Perm.refl _
    · exact (List.Perm.cons x ih).trans (List.Perm.swap e x xs)

/-- The stable descending sort is a permutation of its input. -/
theorem sortLogDesc_perm (l : List LogEntry) : (sortLogDesc l).Perm l := by
  induction l with
  | nil => simp [sortLogDesc]
  | cons x xs ih => exact (insertLogDesc_perm x (sortLogDesc xs)).trans (List.Perm.cons x ih)

/-- Members of an insertion come from the inserted element or the list. -/
theorem mem_insertLogDesc {y e : LogEntry} {l : List LogEntry}
    (h : y ∈ insertLogDesc e l) : y = e ∨ y ∈ l := by
  have := (insertLogDesc_perm e l).mem_iff.mp h
  simpa using this

/-- Insertion preserves the descending-by-timestamp invariant. -/
theorem insertLogDesc_sorted (e : LogEntry) (l : List LogEntry)
    (h : l.Pairwise (fun a b => b.timestamp ≤ a.timestamp)) :
    (insertLogDesc e l).Pairwise (fun a b => b.timestamp ≤ a.timestamp) := by
  induction l with
  | nil => simp [insertLogDesc]
  | cons x xs ih =>
    rcases List.pairwise_cons.mp h with ⟨hx, hxs⟩
    unfold insertLogDesc
    split
    · rename_i hlt
      refine List.pairwise_cons.mpr ⟨?_, h⟩
      intro y hy
      rcases List.mem_cons.mp hy with rfl | hy'
      · exact le_of_lt hlt
      · exact (hx y hy').trans (le_of_lt hlt)
    · rename_i hlt
      refine List.pairwise_cons.mpr ⟨?_, ih hxs⟩
      intro y hy
      rcases mem_insertLogDesc hy with rfl | hy'
      · exact le_of_not_lt hlt
      · exact hx y hy'

/-- The sorted log is descending by timestamp. -/
theorem sortLogDesc_sorted (l : List LogEntry) :
    (sortLogDesc l).Pairwise (fun a b => b.timestamp ≤ a.timestamp) := by
  induction l with
  | nil => simp [sortLogDesc]
  | cons x xs ih => exact insertLogDesc_sorted x (sortLogDesc xs) ih

/-- Claim C8 (confirmed): `get_log_details` returns exactly
`"No log entries found."` on an empty log; otherwise it renders the entries
sorted descending by timestamp (a permutation of the log, pairwise
descending), formatting at most the 20 most recent, most-recent-first, each
block carrying ordinal, timestamp, type, actor, and message. -/
theorem claim_c8 :
    (∀ env : Env, get_log_details env [] = "No log entries found.") ∧
    (∀ (env : Env) (entries : List LogEntry), entries ≠ [] →
       (sortLogDesc entries).Perm entries ∧
       (sortLogDesc entries).Pairwise (fun a b => b.timestamp ≤ a.timestamp) ∧
       ((sortLogDesc entries).take 20).length ≤ 20 ∧
       get_log_details env entries =
         joinLines ([eq60, "DETAILED SERVER LOGS", eq60,
                     "Total Events: " ++ Nat.repr entries.length, ""] ++
                    logBlocks env 0 ((sortLogDesc entries).take 20) ++ [eq60])) := by
  constructor
  · intro env; rfl
  · intro env entries hne
    refine ⟨sortLogDesc_perm entries, sortLogDesc_sorted entries, ?_, ?_⟩
    · rw [List.length_take]
      exact Nat.min_le_left _ _
    · have hs : ¬ ((sortLogDesc entries).isEmpty = true) := by
        intro h
        rw [List.isEmpty_iff] at h
        have hl := (sortLogDesc_perm entries).length_eq
        rw [h, List.length_nil] at hl
        exact hne (List.length_eq_zero.mp hl.symm)
      unfold get_log_details
      rw [if_neg hs]

/-- Witness for claim C8 on a concrete two-entry log. -/
theorem claim_c8_witness :
    sampleLog ≠ [] ∧
    ((sortLogDesc sampleLog).Perm sampleLog ∧
     (sortLogDesc sampleLog).Pairwise (fun a b => b.timestamp ≤ a.timestamp) ∧
     ((sortLogDesc sampleLog).take 20).length ≤ 20 ∧
     get_log_details simEnv sampleLog =
       joinLines ([eq60, "DETAILED SERVER LOGS", eq60,
                   "Total Events: " ++ Nat.repr sampleLog.length, ""] ++
                  logBlocks simEnv 0 ((sortLogDesc sampleLog).take 20) ++ [eq60])) :=
  ⟨by decide, claim_c8.2 simEnv sampleLog (by decide)⟩

end ToggleTalk
